import Mathlib

/-!
# Verification of the voyage travel-document timeline

A shallow embedding of the logic-bearing parts of the repository:

* the Document Store state and its mutations (`handleFileAdded`,
  `updateDocument`, `deleteDocument`, `parseDocumentData` from the main
  page component),
* the upload File Validator (`validateFile` from `FileUpload.tsx`),
* the Document Parser Client (`parseDocument`, `parseFileWithGPT`,
  `isFileTypeSupported` from `src/utils/fileParser.ts`).

JavaScript `Array.prototype.sort` is required by the ECMAScript
specification to be stable, and the comparator used by the page is
`(a, b) => parseISO(a.customDateTime).getTime() - parseISO(b.customDateTime).getTime()`,
a total preorder by the millisecond value of `customDateTime`.  A stable
sort under a total preorder has a unique result, so we model it with
`List.insertionSort` (stable) over a numeric key that is strictly
monotone in the local date-time components.
-/

namespace Voyage

open List

/-- A local wall-clock date-time.  Stands for a JavaScript `Date` (or the
ISO string read back by `parseISO`): `getTime()` is strictly monotone in
the lexicographic order of these components for a fixed time zone, so
ordering by `DateTime.key` below is ordering by `getTime()`. -/
structure DateTime where
  year : Nat
  month : Nat
  day : Nat
  hour : Nat
  minute : Nat
  second : Nat
  millis : Nat
deriving Repr, DecidableEq

/-- Order-embedding of a `DateTime` into `Nat`; stands for
`parseISO(x).getTime()` (the comparator only uses its order). -/
def DateTime.key (d : DateTime) : Nat :=
  ((((((d.year * 13 + d.month) * 32 + d.day) * 25 + d.hour) * 61 + d.minute)
      * 61 + d.second) * 1000 + d.millis)

/-- date-fns `startOfDay`: zeroes the time-of-day components. -/
def DateTime.startOfDay (d : DateTime) : DateTime :=
  { d with hour := 0, minute := 0, second := 0, millis := 0 }

/-- date-fns `setMinutes`: replaces the minutes component. -/
def DateTime.setMinutes (d : DateTime) (m : Nat) : DateTime :=
  { d with minute := m }

/-- date-fns `setHours`: replaces the hours component. -/
def DateTime.setHours (d : DateTime) (h : Nat) : DateTime :=
  { d with hour := h }

/-- The relevant fields of a browser `File` object. -/
structure JSFile where
  name : String
  type : String
  size : Nat
deriving Repr, DecidableEq

/-- The `TravelDocument` record of `page.tsx`:
`{ id, file, displayName, customDateTime, uploadedAt }`.
`customDateTime` is the spec's `scheduledAt`, `uploadedAt` its
`createdAt`. -/
structure TravelDocument where
  id : String
  file : JSFile
  displayName : String
  customDateTime : DateTime
  uploadedAt : DateTime
deriving Repr, DecidableEq

/-- The numeric sort key of a document, i.e.
`parseISO(doc.customDateTime).getTime()`. -/
def docKey (d : TravelDocument) : Nat := d.customDateTime.key

/-- The comparator's order: `docKey a ≤ docKey b`. -/
def docLe (a b : TravelDocument) : Prop := docKey a ≤ docKey b

instance : DecidableRel docLe := fun _ _ => Nat.decLe _ _

instance : IsTotal TravelDocument docLe := ⟨fun _ _ => Nat.le_total _ _⟩

instance : IsTrans TravelDocument docLe := ⟨fun _ _ _ => Nat.le_trans⟩

/-- The stable ascending sort by `customDateTime` performed by
`[...].sort((a, b) => parseISO(a.customDateTime).getTime() - parseISO(b.customDateTime).getTime())`. -/
def sortByDateTime (docs : List TravelDocument) : List TravelDocument :=
  docs.insertionSort docLe

/-- The default `customDateTime` of `handleFileAdded`:
`setHours(setMinutes(startOfDay(today), 0), 10)` — today at 10:00 local. -/
def todayAt10AM (today : DateTime) : DateTime :=
  DateTime.setHours (DateTime.setMinutes (DateTime.startOfDay today) 0) 10

/-- The record built by `handleFileAdded` for a freshly generated
`documentId` (`crypto.randomUUID()`) at wall-clock time `now`. -/
def mkNewDocument (documentId : String) (now : DateTime) (file : JSFile) :
    TravelDocument :=
  { id := documentId
    file := file
    displayName := file.name
    customDateTime := todayAt10AM now
    uploadedAt := now }

/-- `handleFileAdded` of `page.tsx`: append the new record, then the
stable re-sort `setDocuments(prev => [...prev, newDocument].sort(...))`. -/
def handleFileAdded (documentId : String) (now : DateTime) (file : JSFile)
    (docs : List TravelDocument) : List TravelDocument :=
  sortByDateTime (docs ++ [mkNewDocument documentId now file])

/-- The `updates : Partial<TravelDocument>` argument of `updateDocument`
(restricted to the fields the page ever passes). -/
structure DocumentUpdates where
  displayName : Option String := none
  customDateTime : Option DateTime := none
deriving Repr, DecidableEq

/-- JavaScript object spread `{ ...doc, ...updates }`: present fields of
`updates` overwrite those of `doc`. -/
def applyUpdates (u : DocumentUpdates) (d : TravelDocument) : TravelDocument :=
  { d with
    displayName := u.displayName.getD d.displayName
    customDateTime := u.customDateTime.getD d.customDateTime }

/-- `updateDocument` of `page.tsx`:
`setDocuments(prev => prev.map(doc => doc.id === id ? { ...doc, ...updates } : doc).sort(...))`. -/
def updateDocument (id : String) (u : DocumentUpdates)
    (docs : List TravelDocument) : List TravelDocument :=
  sortByDateTime
    (docs.map fun doc => if doc.id = id then applyUpdates u doc else doc)

/-- `deleteDocument` of `page.tsx`:
`setDocuments(prev => prev.filter(doc => doc.id !== id))`. -/
def deleteDocument (id : String) (docs : List TravelDocument) :
    List TravelDocument :=
  docs.filter fun doc => doc.id ≠ id

/-- One user-visible Document Store mutation. -/
inductive StoreOp where
  | add (documentId : String) (now : DateTime) (file : JSFile)
  | update (id : String) (u : DocumentUpdates)
  | remove (id : String)
deriving Repr

/-- Apply one mutation to the store. -/
def applyOp (docs : List TravelDocument) : StoreOp → List TravelDocument
  | .add documentId now file => handleFileAdded documentId now file docs
  | .update id u => updateDocument id u docs
  | .remove id => deleteDocument id docs

/-- Run a sequence of mutations from the initial empty store
(`useState<TravelDocument[]>([])`). -/
def runOps (ops : List StoreOp) : List TravelDocument :=
  ops.foldl applyOp []

/-- Run a sequence of `handleFileAdded` calls (inputs: generated id,
wall-clock time, uploaded file) from the initial empty store. -/
def runAdds (adds : List (String × DateTime × JSFile)) : List TravelDocument :=
  adds.foldl (fun docs a => handleFileAdded a.1 a.2.1 a.2.2 docs) []

/-- The records those `handleFileAdded` calls create, in insertion
order. -/
def createdDocs (adds : List (String × DateTime × JSFile)) :
    List TravelDocument :=
  adds.map fun a => mkNewDocument a.1 a.2.1 a.2.2

/-! ## File Validator (`FileUpload.tsx`, `validateFile`) -/

/-- The reject reason of `validateFile`, identified by the error message
the source returns:
* `sizeExceeded` stands for "File size exceeds NMB limit",
* `unsupportedType` stands for "File type T is not supported". -/
inductive ValidationError where
  | sizeExceeded
  | unsupportedType
deriving Repr, DecidableEq

/-- The `{ isValid: boolean; error?: string }` result of `validateFile`. -/
structure ValidationResult where
  isValid : Bool
  error : Option ValidationError
deriving Repr, DecidableEq

/-- `validateFile` of `FileUpload.tsx`: reject when
`file.size > maxFileSize`; otherwise reject when
`acceptedFileTypes[0] !== '*' && !acceptedFileTypes.includes(file.type)`;
otherwise accept.  (`acceptedFileTypes[0]` on an empty array is
`undefined`, which also differs from `'*'`; `List.head?` models that.) -/
def validateFile (acceptedFileTypes : List String) (maxFileSize : Nat)
    (file : JSFile) : ValidationResult :=
  if file.size > maxFileSize then
    { isValid := false, error := some .sizeExceeded }
  else if acceptedFileTypes.head? ≠ some "*" ∧
      acceptedFileTypes.contains file.type = false then
    { isValid := false, error := some .unsupportedType }
  else
    { isValid := true, error := none }

/-- The concrete `acceptedFileTypes` configuration the page passes to
`FileUpload`. -/
def uploadAcceptedTypes : List String :=
  ["application/pdf", "image/jpeg", "image/png", "image/jpg",
   "application/msword",
   "application/vnd.openxmlformats-officedocument.wordprocessingml.document"]

/-- The concrete `maxFileSize` the page passes to `FileUpload`: 25MB. -/
def uploadMaxFileSize : Nat := 25 * 1024 * 1024

/-! ## Document Parser Client (`src/utils/fileParser.ts`) -/

/-- The failure branches of the Parser Client, identified by the error
string each source branch returns:
* `missingApiKey`: "OpenAI API key not configured. ..."
* `noResponse`: "No response received from OpenAI"
* `missingRequiredFields`: "Invalid response format from OpenAI - missing
  required fields"
* `invalidConfidence`: "Invalid confidence value from OpenAI"
* `failedToParseResponse`: "Failed to parse OpenAI response"
* `unsupportedFileType`: "File type T is not supported for parsing. ..."
* `tooLargeForParsing`: "File is too large for AI parsing (NMB). Maximum
  size for parsing is 10MB." -/
inductive ParseError where
  | missingApiKey
  | noResponse
  | missingRequiredFields
  | invalidConfidence
  | failedToParseResponse
  | unsupportedFileType
  | tooLargeForParsing
deriving Repr, DecidableEq

/-- The raw JSON object produced by `JSON.parse` of the service response,
read at the `ParsedDocument` fields; each field may be absent (`none`). -/
structure RawPayload where
  documentName : Option String := none
  timestamp : Option DateTime := none
  documentType : Option String := none
  confidence : Option String := none
deriving Repr, DecidableEq

/-- JavaScript falsiness of an optional string field (`!x`): true for a
missing field (`undefined`) and for the empty string. -/
def strFalsy : Option String → Bool
  | none => true
  | some s => s = ""

/-- `['high', 'medium', 'low'].includes(x)` where `x` may be absent
(`includes(undefined)` is `false`). -/
def confidenceAllowed : Option String → Bool
  | none => false
  | some c => ["high", "medium", "low"].contains c

/-- What the external AI completion call produced, as seen by the client:
no message content, content that is not valid JSON, or a parsed JSON
payload. -/
inductive GPTResponse where
  | noContent
  | malformedJSON
  | payload (p : RawPayload)
deriving Repr

/-- The `{ success, data?, error? }` result type of the parser. -/
structure FileParseResult where
  success : Bool
  data : Option RawPayload := none
  error : Option ParseError := none
deriving Repr, DecidableEq

/-- A parser run: its result plus whether the external service was
actually invoked (`openai.chat.completions.create` reached). -/
structure ParseRun where
  result : FileParseResult
  serviceCalled : Bool
deriving Repr, DecidableEq

/-- `parseFileWithGPT` of `fileParser.ts`.  `apiKeyConfigured` models
`!!process.env.NEXT_PUBLIC_OPENAI_API_KEY`; when it is false the function
returns before any network call.  Otherwise the service is invoked and its
outcome `resp` is validated exactly as the source does. -/
def parseFileWithGPT (apiKeyConfigured : Bool) (resp : GPTResponse) :
    ParseRun :=
  if apiKeyConfigured = false then
    { result := { success := false, error := some .missingApiKey },
      serviceCalled := false }
  else
    match resp with
    | .noContent =>
      { result := { success := false, error := some .noResponse },
        serviceCalled := true }
    | .malformedJSON =>
      { result := { success := false, error := some .failedToParseResponse },
        serviceCalled := true }
    | .payload p =>
      if strFalsy p.documentName || strFalsy p.documentType ||
          strFalsy p.confidence then
        { result := { success := false,
                      error := some .missingRequiredFields },
          serviceCalled := true }
      else if confidenceAllowed p.confidence = false then
        { result := { success := false, error := some .invalidConfidence },
          serviceCalled := true }
      else
        { result := { success := true, data := some p },
          serviceCalled := true }

/-- The `supportedTypes` list of `isFileTypeSupported` in
`fileParser.ts`. -/
def supportedTypesForParsing : List String :=
  ["text/plain", "application/pdf", "application/msword",
   "application/vnd.openxmlformats-officedocument.wordprocessingml.document",
   "text/csv", "application/json"]

/-- `isFileTypeSupported` of `fileParser.ts`. -/
def isFileTypeSupported (file : JSFile) : Bool :=
  supportedTypesForParsing.contains file.type

/-- `maxSizeForParsing` of `parseDocument`: `10 * 1024 * 1024`. -/
def maxSizeForParsing : Nat := 10 * 1024 * 1024

/-- `parseDocument` of `fileParser.ts`: reject unsupported types, then
files over the 10MB parse ceiling, both before reading the file or
calling the service; otherwise delegate to `parseFileWithGPT`. -/
def parseDocument (file : JSFile) (apiKeyConfigured : Bool)
    (resp : GPTResponse) : ParseRun :=
  if isFileTypeSupported file = false then
    { result := { success := false, error := some .unsupportedFileType },
      serviceCalled := false }
  else if file.size > maxSizeForParsing then
    { result := { success := false, error := some .tooLargeForParsing },
      serviceCalled := false }
  else
    parseFileWithGPT apiKeyConfigured resp

/-- `parseDocumentData` of `page.tsx`, applied to the store once the
parse result for record `doc` arrives: on `result.success && result.data`
it merges `documentName` (and `timestamp` when present) into the record
via `updateDocument`; on failure it only raises an alert and leaves the
store alone. -/
def parseDocumentData (doc : TravelDocument) (result : FileParseResult)
    (docs : List TravelDocument) : List TravelDocument :=
  if result.success then
    match result.data with
    | some d =>
      updateDocument doc.id
        { displayName := d.documentName, customDateTime := d.timestamp } docs
    | none => docs
  else
    docs

/-! ## Spec-side models for the error contract of the Store

The spec assigns `update` and `remove` a `NotFound` failure on an absent
id; the source mutations are total functions with no error channel.  The
following definitions state the spec's contract so that it can be
compared with the source behaviour. -/

/-- The spec's Store error taxonomy (the part relevant here). -/
inductive StoreError where
  | notFound
deriving Repr, DecidableEq

/-- Modelled from the spec: "`update(id, partialFields) -> void` ...
Fails with `NotFound` if `id` is absent."  A spec-conforming `update`
returns an explicit `NotFound` error when no record has the given id,
and otherwise behaves as the source's `updateDocument`. -/
def updateDocumentSpec (id : String) (u : DocumentUpdates)
    (docs : List TravelDocument) : Except StoreError (List TravelDocument) :=
  if docs.any fun d => d.id = id then
    Except.ok (updateDocument id u docs)
  else
    Except.error StoreError.notFound

/-- Modelled from the spec: "`remove(id) -> void` ... Fails with
`NotFound` if absent; deleting an absent id twice is safe the second
call is a no-op error, not a crash."  A spec-conforming `remove` returns
an explicit `NotFound` error when no record has the given id, and
otherwise behaves as the source's `deleteDocument`. -/
def deleteDocumentSpec (id : String) (docs : List TravelDocument) :
    Except StoreError (List TravelDocument) :=
  if docs.any fun d => d.id = id then
    Except.ok (deleteDocument id docs)
  else
    Except.error StoreError.notFound

/-! ## Concrete sample values used by witnesses and counterexamples -/

/-- A 2MB PDF file. -/
def sampleFile : JSFile :=
  { name := "ticket.pdf", type := "application/pdf", size := 2 * 1024 * 1024 }

/-- A concrete wall-clock instant. -/
def sampleNow : DateTime :=
  { year := 2026, month := 10, day := 11, hour := 14, minute := 33,
    second := 7, millis := 250 }

/-- A concrete stored record. -/
def sampleDoc : TravelDocument :=
  { id := "a", file := sampleFile, displayName := "ticket.pdf",
    customDateTime := todayAt10AM sampleNow, uploadedAt := sampleNow }

/-! ## Helper lemmas about the stable sort -/

theorem sorted_sortByDateTime (l : List TravelDocument) :
    List.Sorted docLe (sortByDateTime l) :=
  List.sorted_insertionSort docLe l

theorem perm_sortByDateTime (l : List TravelDocument) :
    sortByDateTime l ~ l :=
  List.perm_insertionSort docLe l

/-- Stability of the sort, filter form: for any predicate that only
holds on documents of one fixed key `k`, filtering commutes with the
sort, i.e. the records of any one timestamp class keep their relative
order. -/
theorem filter_sortByDateTime (p : TravelDocument → Bool) (k : Nat)
    (hp : ∀ d, p d = true → docKey d = k) (l : List TravelDocument) :
    (sortByDateTime l).filter p = l.filter p := by
  have hpair : (l.filter p).Pairwise docLe := by
    apply List.pairwise_of_forall_mem_list
    intro a ha b hb
    have hka := hp a (List.mem_filter.mp ha).2
    have hkb := hp b (List.mem_filter.mp hb).2
    unfold docLe
    omega
  have hsub : l.filter p <+ sortByDateTime l :=
    List.sublist_insertionSort hpair (List.filter_sublist l)
  have hself : (l.filter p).filter p = l.filter p :=
    List.filter_eq_self.mpr fun a ha => (List.mem_filter.mp ha).2
  have hsub2 : l.filter p <+ (sortByDateTime l).filter p := by
    have h := hsub.filter p
    rwa [hself] at h
  have hlen : ((sortByDateTime l).filter p).length = (l.filter p).length :=
    ((perm_sortByDateTime l).filter p).length_eq
  exact (hsub2.eq_of_length hlen.symm).symm

theorem sorted_applyOp {docs : List TravelDocument}
    (h : List.Sorted docLe docs) (op : StoreOp) :
    List.Sorted docLe (applyOp docs op) := by
  cases op with
  | add documentId now file => exact sorted_sortByDateTime _
  | update id u => exact sorted_sortByDateTime _
  | remove id => exact h.filter _

theorem sorted_foldl_applyOp (ops : List StoreOp) :
    ∀ docs : List TravelDocument, List.Sorted docLe docs →
      List.Sorted docLe (ops.foldl applyOp docs) := by
  induction ops with
  | nil => exact fun _ h => h
  | cons op ops ih => exact fun docs h => ih _ (sorted_applyOp h op)

/-- The map inside `updateDocument` leaves any filter alone whose
predicate is false on the targeted record before and after the merge. -/
theorem filter_map_update (id : String) (u : DocumentUpdates)
    (q : TravelDocument → Bool)
    (hq : ∀ d, d.id = id → q d = false ∧ q (applyUpdates u d) = false) :
    ∀ docs : List TravelDocument,
      ((docs.map fun doc => if doc.id = id then applyUpdates u doc else doc).filter q)
        = docs.filter q := by
  intro docs
  induction docs with
  | nil => rfl
  | cons d ds ih =>
    by_cases h : d.id = id
    · simp [List.map_cons, if_pos h, List.filter_cons, (hq d h).1,
        (hq d h).2, ih]
    · simp [List.map_cons, if_neg h, List.filter_cons, ih]

/-- `applyUpdates` never touches the `id` field. -/
theorem applyUpdates_id (u : DocumentUpdates) (d : TravelDocument) :
    (applyUpdates u d).id = d.id :=
  rfl

/-! ## Claim theorems -/

/-- C1: after every sequence of Document Store operations (add, update,
remove) starting from the empty store, the collection is in
non-decreasing order of `scheduledAt` (`customDateTime`); and
`update(id, {scheduledAt: t})` yields, for any `t`, a collection that is
again sorted and is a permutation of the pointwise-updated collection,
i.e. the updated record sits at a position consistent with a full
re-sort. -/
theorem store_sorted_after_every_op :
    (∀ ops : List StoreOp, List.Sorted docLe (runOps ops)) ∧
    (∀ (id : String) (t : DateTime) (docs : List TravelDocument),
      List.Sorted docLe (updateDocument id { customDateTime := some t } docs) ∧
      updateDocument id { customDateTime := some t } docs ~
        docs.map fun d =>
          if d.id = id then { d with customDateTime := t } else d) := by
  refine ⟨fun ops => sorted_foldl_applyOp ops [] List.sorted_nil, ?_⟩
  intro id t docs
  exact ⟨sorted_sortByDateTime _, perm_sortByDateTime _⟩

/-- C5: `handleFileAdded` creates a record whose `displayName` is the
original file name and whose `customDateTime` is today (the current
wall-clock date) at 10:00 local time, carrying the freshly generated id;
the new store is exactly the old records plus that record (as a
permutation, since the store is re-sorted). -/
theorem add_creates_record_with_defaults (documentId : String)
    (now : DateTime) (file : JSFile) (docs : List TravelDocument) :
    handleFileAdded documentId now file docs ~
        docs ++ [mkNewDocument documentId now file] ∧
    (mkNewDocument documentId now file).id = documentId ∧
    (mkNewDocument documentId now file).displayName = file.name ∧
    (mkNewDocument documentId now file).customDateTime =
      { year := now.year, month := now.month, day := now.day,
        hour := 10, minute := 0, second := 0, millis := 0 } ∧
    mkNewDocument documentId now file ∈ handleFileAdded documentId now file docs := by
  refine ⟨perm_sortByDateTime _, rfl, rfl, rfl, ?_⟩
  exact (perm_sortByDateTime _).mem_iff.mpr (by simp)

/-- C9: when the parse result for a record is a failure, the store is
left entirely unchanged: no record is modified, added or removed, and
the order is preserved. -/
theorem parse_failure_leaves_store_unchanged (doc : TravelDocument)
    (result : FileParseResult) (docs : List TravelDocument)
    (h : result.success = false) :
    parseDocumentData doc result docs = docs := by
  simp [parseDocumentData, h]

/-- Witness for C9 at a concrete failing parse result and store. -/
theorem parse_failure_leaves_store_unchanged_witness :
    parseDocumentData sampleDoc
        { success := false, error := some ParseError.noResponse }
        [sampleDoc] = [sampleDoc] :=
  parse_failure_leaves_store_unchanged sampleDoc _ [sampleDoc] rfl

/-- C10: `updateDocument` modifies at most the record whose id matches:
the store keeps its size, and the records with a different id survive
with all their fields unchanged (a permutation: only their positions may
move with the re-sort). -/
theorem update_frames_other_records (id : String) (u : DocumentUpdates)
    (docs : List TravelDocument) :
    (updateDocument id u docs).length = docs.length ∧
    (updateDocument id u docs).filter (fun d => d.id ≠ id) ~
      docs.filter fun d => d.id ≠ id := by
  constructor
  · unfold updateDocument sortByDateTime
    rw [List.length_insertionSort, List.length_map]
  · have h1 := (perm_sortByDateTime
      (docs.map fun doc => if doc.id = id then applyUpdates u doc else doc)).filter
      (fun d => decide (d.id ≠ id))
    rw [filter_map_update id u _ ?_ docs] at h1
    · exact h1
    · intro d hd
      constructor
      · simp [hd]
      · simp [applyUpdates_id, hd]

/-- Unrolling one `handleFileAdded` under a timestamp-class filter: the
new record lands at the end of its class. -/
theorem foldl_add_filter_key (k : Nat) :
    ∀ (adds : List (String × DateTime × JSFile)) (docs : List TravelDocument),
      ((adds.foldl (fun l a => handleFileAdded a.1 a.2.1 a.2.2 l) docs).filter
          fun d => docKey d == k) =
        docs.filter (fun d => docKey d == k) ++
          (createdDocs adds).filter fun d => docKey d == k := by
  intro adds
  induction adds with
  | nil => intro docs; simp [createdDocs]
  | cons a adds ih =>
    intro docs
    rw [List.foldl_cons, ih (handleFileAdded a.1 a.2.1 a.2.2 docs),
      handleFileAdded,
      filter_sortByDateTime _ k (fun d hd => by simpa using hd) _,
      List.filter_append]
    simp only [createdDocs, List.map_cons, List.append_assoc]
    rw [← List.filter_append, List.singleton_append]

/-- C2: the Document Store's ordering is stable.  (1) After any sequence
of `handleFileAdded` calls, the records of each fixed timestamp key
appear in exactly their insertion order.  (2) `updateDocument` never
reorders two untouched records with identical timestamps.  (3)
`deleteDocument` keeps the surviving records in their previous relative
order (the result is a sublist of the store). -/
theorem store_order_stable :
    (∀ (adds : List (String × DateTime × JSFile)) (k : Nat),
      ((runAdds adds).filter fun d => docKey d == k) =
        (createdDocs adds).filter fun d => docKey d == k) ∧
    (∀ (id : String) (u : DocumentUpdates) (docs : List TravelDocument)
        (k : Nat),
      ((updateDocument id u docs).filter
          fun d => docKey d == k && d.id ≠ id) =
        docs.filter fun d => docKey d == k && d.id ≠ id) ∧
    (∀ (id : String) (docs : List TravelDocument),
      deleteDocument id docs <+ docs) := by
  refine ⟨?_, ?_, ?_⟩
  · intro adds k
    rw [runAdds, foldl_add_filter_key k adds []]
    simp
  · intro id u docs k
    rw [updateDocument,
      filter_sortByDateTime _ k (fun d hd => by
        have := (Bool.and_eq_true _ _).mp hd
        simpa using this.1) _]
    apply filter_map_update
    intro d hd
    constructor
    · simp [hd]
    · simp [applyUpdates_id, hd]
  · intro id docs
    exact List.filter_sublist docs

/-- C3 counterexample: on an absent id the source's `updateDocument`
completes silently and leaves the store as it was, whereas the
spec-modelled `update` contract demands a `NotFound` error. -/
theorem update_absent_id_completes_silently :
    updateDocument "b" { displayName := some "x" } [sampleDoc] = [sampleDoc] ∧
    updateDocumentSpec "b" { displayName := some "x" } [sampleDoc] =
      Except.error StoreError.notFound := by
  constructor
  · rfl
  · rfl

/-- C3 (amended): `updateDocument` on an id absent from a (sorted) store
is a silent no-op: it completes without signalling any error and returns
the store unchanged; the spec-modelled contract would instead report
`NotFound`. -/
theorem update_absent_id_noop (id : String) (u : DocumentUpdates)
    (docs : List TravelDocument) (hsorted : List.Sorted docLe docs)
    (habsent : ∀ d ∈ docs, d.id ≠ id) :
    updateDocument id u docs = docs ∧
    updateDocumentSpec id u docs = Except.error StoreError.notFound := by
  have hmap :
      (docs.map fun doc => if doc.id = id then applyUpdates u doc else doc)
        = docs := by
    rw [List.map_congr_left fun d hd => if_neg (habsent d hd),
      List.map_id' docs]
  constructor
  · rw [updateDocument, hmap]
    exact hsorted.insertionSort_eq
  · have hnc : ¬ ((docs.any fun d => d.id = id) = true) := by
      rw [List.any_eq_true]
      rintro ⟨d, hd, hid⟩
      exact habsent d hd (of_decide_eq_true hid)
    rw [updateDocumentSpec, if_neg hnc]

/-- Witness for C3 (amended) at a concrete one-record store and an
absent id. -/
theorem update_absent_id_noop_witness :
    updateDocument "b" { customDateTime := none } [sampleDoc] = [sampleDoc] ∧
    updateDocumentSpec "b" { customDateTime := none } [sampleDoc] =
      Except.error StoreError.notFound :=
  update_absent_id_noop "b" { customDateTime := none } [sampleDoc]
    (List.sorted_singleton _)
    (by intro d hd; rw [List.mem_singleton] at hd; subst hd; decide)

/-- C4 counterexample: a second `deleteDocument` with the same,
now-absent id completes silently with the store unchanged; the
spec-modelled `remove` contract would instead report `NotFound`. -/
theorem remove_twice_signals_nothing :
    deleteDocument "a" [sampleDoc] = [] ∧
    deleteDocument "a" (deleteDocument "a" [sampleDoc]) =
      deleteDocument "a" [sampleDoc] ∧
    deleteDocumentSpec "a" (deleteDocument "a" [sampleDoc]) =
      Except.error StoreError.notFound :=
  ⟨rfl, rfl, rfl⟩

/-- C4 (amended): when exactly one record carries the id,
`deleteDocument` removes exactly that record (size drops by one, the
rest survive in order, all fields intact); a second call with the same
id is a silent no-op: it returns the store unchanged and raises no
error, while the spec-modelled contract would report `NotFound`. -/
theorem remove_exactly_one_then_silent (id : String)
    (docs : List TravelDocument)
    (hone : (docs.filter fun d => d.id = id).length = 1) :
    (deleteDocument id docs).length + 1 = docs.length ∧
    deleteDocument id docs <+ docs ∧
    (∀ d ∈ docs, d.id ≠ id → d ∈ deleteDocument id docs) ∧
    deleteDocument id (deleteDocument id docs) = deleteDocument id docs ∧
    deleteDocumentSpec id (deleteDocument id docs) =
      Except.error StoreError.notFound := by
  have hdel : deleteDocument id docs =
      docs.filter fun d => !decide (d.id = id) := by
    apply List.filter_congr
    intro d _
    exact decide_not
  refine ⟨?_, List.filter_sublist docs, ?_, ?_, ?_⟩
  · have hlen :=
      (List.filter_append_perm (fun d => decide (d.id = id)) docs).length_eq
    rw [List.length_append] at hlen
    rw [hdel]
    omega
  · intro d hd hne
    exact List.mem_filter.mpr ⟨hd, decide_eq_true hne⟩
  · exact List.filter_eq_self.mpr fun d hd => (List.mem_filter.mp hd).2
  · have hnc : ¬ (((deleteDocument id docs).any fun d => d.id = id) = true) := by
      rw [List.any_eq_true]
      rintro ⟨d, hd, hid⟩
      exact of_decide_eq_true ((List.mem_filter.mp hd).2)
        (of_decide_eq_true hid)
    rw [deleteDocumentSpec, if_neg hnc]

/-- Witness for C4 (amended) at a concrete one-record store. -/
theorem remove_exactly_one_then_silent_witness :
    (deleteDocument "a" [sampleDoc]).length + 1 = [sampleDoc].length ∧
    deleteDocument "a" [sampleDoc] <+ [sampleDoc] ∧
    (∀ d ∈ [sampleDoc], d.id ≠ "a" → d ∈ deleteDocument "a" [sampleDoc]) ∧
    deleteDocument "a" (deleteDocument "a" [sampleDoc]) =
      deleteDocument "a" [sampleDoc] ∧
    deleteDocumentSpec "a" (deleteDocument "a" [sampleDoc]) =
      Except.error StoreError.notFound :=
  remove_exactly_one_then_silent "a" [sampleDoc] (by decide)

/-- C6 counterexample: a 26MB `text/plain` file under the page's upload
configuration (25MB cap, `text/plain` not accepted) is rejected with
reason `sizeExceeded`, not `unsupportedType` — the size check runs
first, so a file of unsupported type is not always rejected with the
`unsupportedType` reason. -/
theorem oversize_unsupported_rejected_for_size :
    uploadAcceptedTypes.contains "text/plain" = false ∧
    26 * 1024 * 1024 > uploadMaxFileSize ∧
    validateFile uploadAcceptedTypes uploadMaxFileSize
        { name := "big.txt", type := "text/plain", size := 26 * 1024 * 1024 } =
      { isValid := false, error := some ValidationError.sizeExceeded } ∧
    ValidationError.sizeExceeded ≠ ValidationError.unsupportedType := by
  refine ⟨by decide, by decide, rfl, by decide⟩

/-- C6 (amended): `validateFile` rejects every file over `maxSizeBytes`
regardless of type with reason `sizeExceeded`; it rejects every file
whose type is not in a non-wildcard `acceptedFileTypes` regardless of
size, the reason being `unsupportedType` whenever the size limit is not
also exceeded (the size check takes precedence); and it accepts, with no
error, every file passing both checks.  It is a pure predicate with no
side effects. -/
theorem validator_checks (types : List String) (maxSize : Nat)
    (f : JSFile) :
    (f.size > maxSize →
      validateFile types maxSize f =
        { isValid := false, error := some ValidationError.sizeExceeded }) ∧
    (types.head? ≠ some "*" → types.contains f.type = false →
      (validateFile types maxSize f).isValid = false ∧
      (f.size ≤ maxSize →
        validateFile types maxSize f =
          { isValid := false, error := some ValidationError.unsupportedType })) ∧
    (f.size ≤ maxSize →
      (types.head? = some "*" ∨ types.contains f.type = true) →
      validateFile types maxSize f = { isValid := true, error := none }) := by
  refine ⟨?_, ?_, ?_⟩
  · intro h
    rw [validateFile, if_pos h]
  · intro h1 h2
    by_cases hs : f.size > maxSize
    · rw [validateFile, if_pos hs]
      exact ⟨rfl, fun hle => absurd hs (by omega)⟩
    · rw [validateFile, if_neg hs, if_pos ⟨h1, h2⟩]
      exact ⟨rfl, fun _ => rfl⟩
  · intro h1 h2
    rw [validateFile, if_neg (show ¬f.size > maxSize by omega), if_neg]
    rintro ⟨hstar, hcont⟩
    rcases h2 with h2 | h2
    · exact hstar h2
    · rw [h2] at hcont
      cases hcont

/-- Witness for C6 (amended): each branch exercised on a concrete
configuration and file. -/
theorem validator_checks_witness :
    validateFile ["application/pdf"] 100
        { name := "a.txt", type := "text/plain", size := 101 } =
      { isValid := false, error := some ValidationError.sizeExceeded } ∧
    validateFile ["application/pdf"] 100
        { name := "b.txt", type := "text/plain", size := 50 } =
      { isValid := false, error := some ValidationError.unsupportedType } ∧
    validateFile ["application/pdf"] 100
        { name := "c.pdf", type := "application/pdf", size := 50 } =
      { isValid := true, error := none } :=
  ⟨(validator_checks ["application/pdf"] 100 _).1 (by decide),
   ((validator_checks ["application/pdf"] 100 _).2.1 (by decide)
      (by decide)).2 (by decide),
   (validator_checks ["application/pdf"] 100 _).2.2 (by decide)
      (Or.inr (by decide))⟩

/-- C7: the Parser Client rejects up front — without invoking the
external service — every file whose type is outside the parse-supported
set or whose size exceeds the 10MB parse ceiling; in particular an 11MB
`text/plain` file yields the too-large failure with `serviceCalled`
false, for every credential state and every conceivable service
response. -/
theorem parser_rejects_upfront :
    (∀ (f : JSFile) (key : Bool) (resp : GPTResponse),
      isFileTypeSupported f = false ∨ f.size > maxSizeForParsing →
      (parseDocument f key resp).serviceCalled = false ∧
      (parseDocument f key resp).result.success = false) ∧
    (∀ (key : Bool) (resp : GPTResponse),
      parseDocument
          { name := "big.txt", type := "text/plain", size := 11 * 1024 * 1024 }
          key resp =
        { result := { success := false, data := none,
                      error := some ParseError.tooLargeForParsing },
          serviceCalled := false }) := by
  constructor
  · rintro f key resp (h | h)
    · rw [parseDocument, if_pos h]
      exact ⟨rfl, rfl⟩
    · by_cases ht : isFileTypeSupported f = false
      · rw [parseDocument, if_pos ht]
        exact ⟨rfl, rfl⟩
      · rw [parseDocument, if_neg ht, if_pos h]
        exact ⟨rfl, rfl⟩
  · intro key resp
    rfl

/-- Witness for C7 at a concrete unsupported file type. -/
theorem parser_rejects_upfront_witness :
    (parseDocument { name := "a.zip", type := "application/zip", size := 5 }
        true GPTResponse.noContent).serviceCalled = false ∧
    (parseDocument { name := "a.zip", type := "application/zip", size := 5 }
        true GPTResponse.noContent).result.success = false :=
  parser_rejects_upfront.1
    { name := "a.zip", type := "application/zip", size := 5 }
    true GPTResponse.noContent (Or.inl (by decide))

/-- C8: any service payload missing one of the mandatory fields
(`documentName`, `documentType`, `confidence`) or carrying a confidence
outside {high, medium, low} makes the client return a validation
failure — success is false, no data is carried, and the error is one of
the two response-validation branches. -/
theorem invalid_payload_not_success (p : RawPayload)
    (h : p.documentName = none ∨ p.documentType = none ∨ p.confidence = none ∨
      ∃ c, p.confidence = some c ∧
        c ∉ (["high", "medium", "low"] : List String)) :
    (parseFileWithGPT true (GPTResponse.payload p)).result.success = false ∧
    (parseFileWithGPT true (GPTResponse.payload p)).result.data = none ∧
    ((parseFileWithGPT true (GPTResponse.payload p)).result.error =
        some ParseError.missingRequiredFields ∨
      (parseFileWithGPT true (GPTResponse.payload p)).result.error =
        some ParseError.invalidConfidence) := by
  by_cases hf : (strFalsy p.documentName || strFalsy p.documentType ||
      strFalsy p.confidence) = true
  · simp [parseFileWithGPT, hf]
  · have h3 : ∃ c, p.confidence = some c ∧
        c ∉ (["high", "medium", "low"] : List String) := by
      rcases h with h | h | h | h
      · exact absurd hf (by simp [strFalsy, h])
      · exact absurd hf (by simp [strFalsy, h])
      · exact absurd hf (by simp [strFalsy, h])
      · exact h
    obtain ⟨c, hc, hcmem⟩ := h3
    have hca : confidenceAllowed p.confidence = false := by
      rw [hc]
      rw [← Bool.not_eq_true]
      intro hcon
      exact hcmem (by simpa [confidenceAllowed] using hcon)
    simp [parseFileWithGPT, hf, hca]

/-- Witness for C8 at a concrete well-formed payload missing
`documentType`. -/
theorem invalid_payload_not_success_witness :
    (parseFileWithGPT true (GPTResponse.payload
        { documentName := some "Flight Ticket to Tokyo",
          confidence := some "high" })).result.success = false ∧
    (parseFileWithGPT true (GPTResponse.payload
        { documentName := some "Flight Ticket to Tokyo",
          confidence := some "high" })).result.data = none ∧
    ((parseFileWithGPT true (GPTResponse.payload
        { documentName := some "Flight Ticket to Tokyo",
          confidence := some "high" })).result.error =
        some ParseError.missingRequiredFields ∨
      (parseFileWithGPT true (GPTResponse.payload
          { documentName := some "Flight Ticket to Tokyo",
            confidence := some "high" })).result.error =
        some ParseError.invalidConfidence) :=
  invalid_payload_not_success
    { documentName := some "Flight Ticket to Tokyo",
      confidence := some "high" }
    (Or.inr (Or.inl rfl))

end Voyage
